import Mathlib

/-!
Verification of the request/validation/error-mapping core of the
`django-bulksms-bd` client library (`bulksms/utils.py`,
`bulksms/client.py`, `bulksms/exceptions.py`), shallowly embedded in Lean.

Python strings are modelled as `List Char`.  The regular-expression
character class `\s` of the source is modelled by its ASCII fragment
(space, tab, LF, CR, VT, FF); the non-ASCII whitespace code points that
Python additionally puts in `\s` never interact with the digit patterns
checked here.  Exceptions are modelled as values of an explicit error
type; a Python function that returns nothing but may raise is embedded
as a function into `Option` (`some e` = raised `e`, `none` = returned).
-/

set_option autoImplicit false
set_option maxRecDepth 100000

namespace BulkSMS

/-- A Python `str`, modelled as its list of code points. -/
abbrev PyStr := List Char

/-- The ASCII fragment of the Python regex class `\s`
(also of `str.isspace`, used by `str.strip`). -/
def isPySpace (c : Char) : Bool :=
  c == ' ' || c == '\t' || c == '\n' || c == '\r' || c == '\x0b' || c == '\x0c'

/-- ASCII decimal digit, the class `\d` / `0-9` of the source regexes. -/
def isAsciiDigit (c : Char) : Bool :=
  48 ≤ c.toNat && c.toNat ≤ 57

/-- ASCII letter, the class `a-zA-Z` of the source regexes. -/
def isAsciiLetter (c : Char) : Bool :=
  (65 ≤ c.toNat && c.toNat ≤ 90) || (97 ≤ c.toNat && c.toNat ≤ 122)

/-- Operator digit `[3-9]` of the Bangladesh phone patterns. -/
def isOperatorDigit (c : Char) : Bool :=
  51 ≤ c.toNat && c.toNat ≤ 57

/-! ## `bulksms/utils.py` -/

/-- `re.sub(r'[\s\-]', '', s)` in `validate_phone_number`:
remove every whitespace character and hyphen. -/
def removeSpaceHyphen (s : PyStr) : PyStr :=
  s.filter (fun c => !(isPySpace c || c == '-'))

/-- `if cleaned_number.startswith('+'): cleaned_number = cleaned_number[1:]`:
drop one leading plus sign, if present. -/
def dropLeadingPlus (s : PyStr) : PyStr :=
  match s with
  | c :: rest => if c == '+' then rest else c :: rest
  | [] => []

/-- Full-string matcher for the anchored regex `^8801[3-9]\d{8}$`:
the literal prefix `8801`, one operator digit, then exactly eight
decimal digits. -/
def matches8801 (s : PyStr) : Bool :=
  match s with
  | c1 :: c2 :: c3 :: c4 :: d :: rest =>
      c1 == '8' && c2 == '8' && c3 == '0' && c4 == '1' &&
      isOperatorDigit d && rest.length == 8 && rest.all isAsciiDigit
  | _ => false

/-- Full-string matcher for the anchored regex `^01[3-9]\d{8}$`:
the literal prefix `01`, one operator digit, then exactly eight decimal
digits. -/
def matches01 (s : PyStr) : Bool :=
  match s with
  | c1 :: c2 :: d :: rest =>
      c1 == '0' && c2 == '1' &&
      isOperatorDigit d && rest.length == 8 && rest.all isAsciiDigit
  | _ => false

/-- `utils.validate_phone_number`.  `some msg` models
`raise BulkSMSValidationError(msg)`; `none` models a normal return.
The f-string of the second message interpolates the original input. -/
def validate_phone_number (phone_number : PyStr) : Option PyStr :=
  if phone_number.isEmpty then
    some "Phone number cannot be empty".data
  else
    let cleaned := dropLeadingPlus (removeSpaceHyphen phone_number)
    if matches8801 cleaned || matches01 cleaned then
      none
    else
      some ("Invalid Bangladesh phone number format: ".data ++ phone_number ++
        ". Expected formats: 8801712345678, 01712345678, or +8801712345678".data)

/-- `re.sub(r'[\s\-\+]', '', s)` in `format_phone_number`:
remove every whitespace character, hyphen and plus sign (anywhere). -/
def removeSpaceHyphenPlus (s : PyStr) : PyStr :=
  s.filter (fun c => !(isPySpace c || c == '-' || c == '+'))

/-- `cleaned_number.startswith('01')`. -/
def startsWith01 (s : PyStr) : Bool :=
  match s with
  | c1 :: c2 :: _ => c1 == '0' && c2 == '1'
  | _ => false

/-- `utils.format_phone_number`.  Note that the source prepends the three
characters `'880'` to the whole cleaned number (it does not drop the
leading `0`), exactly as written on the `cleaned_number = '880' +
cleaned_number` line. -/
def format_phone_number (phone_number : PyStr) : PyStr :=
  let cleaned := removeSpaceHyphenPlus phone_number
  if startsWith01 cleaned then
    '8' :: '8' :: '0' :: cleaned
  else
    cleaned

/-- Character class `[a-zA-Z0-9\s\-\.]` of `validate_sender_id`. -/
def senderIdAllowed (c : Char) : Bool :=
  isAsciiLetter c || isAsciiDigit c || isPySpace c || c == '-' || c == '.'

/-- `utils.validate_sender_id`.  The regex `^[a-zA-Z0-9\s\-\.]+$` is
checked only on a nonempty string, where a full match is exactly
"every character is in the class". -/
def validate_sender_id (sender_id : PyStr) : Option PyStr :=
  if sender_id.isEmpty then
    some "Sender ID cannot be empty".data
  else if sender_id.length > 20 then
    some "Sender ID cannot be longer than 20 characters".data
  else if sender_id.all senderIdAllowed then
    none
  else
    some "Sender ID can only contain letters, numbers, spaces, hyphens, and dots".data

/-- Python `str.strip()`: drop whitespace from both ends. -/
def pyStrip (s : PyStr) : PyStr :=
  ((s.dropWhile isPySpace).reverse.dropWhile isPySpace).reverse

/-- `utils.validate_message`. -/
def validate_message (message : PyStr) : Option PyStr :=
  if message.isEmpty then
    some "Message cannot be empty".data
  else if (pyStrip message).isEmpty then
    some "Message cannot be only whitespace".data
  else if message.length > 1530 then
    some "Message is too long. Maximum length is 1530 characters for concatenated SMS.".data
  else
    none

/-- `utils.get_message_parts`. -/
def get_message_parts (message : PyStr) : Nat :=
  if message.length ≤ 160 then 1
  else if message.length ≤ 306 then 2
  else if message.length ≤ 459 then 3
  else if message.length ≤ 612 then 4
  else if message.length ≤ 765 then 5
  else if message.length ≤ 918 then 6
  else if message.length ≤ 1071 then 7
  else if message.length ≤ 1224 then 8
  else if message.length ≤ 1377 then 9
  else if message.length ≤ 1530 then 10
  else 11

/-- `utils.validate_otp_format`.  Checks, in source order: nonempty OTP,
nonempty brand name, OTP matches `^\d{4,8}$`, brand name at most 50
characters. -/
def validate_otp_format (otp : PyStr) (brand_name : PyStr) : Option PyStr :=
  if otp.isEmpty then
    some "OTP code cannot be empty".data
  else if brand_name.isEmpty then
    some "Brand name cannot be empty".data
  else if !(4 ≤ otp.length && otp.length ≤ 8 && otp.all isAsciiDigit) then
    some "OTP should be 4-8 digits".data
  else if brand_name.length > 50 then
    some "Brand name cannot be longer than 50 characters".data
  else
    none

/-! ## `bulksms/exceptions.py` -/

/-- The parsed provider reply (`response_data` in `client.py`), as far as
the control flow reads it: the optional integer `code` and the optional
string `message` fields.  Other provider fields are passed through
opaquely and never inspected, so they are not modelled. -/
structure ApiResponse where
  code : Option Int
  message : Option PyStr
deriving DecidableEq

/-- Which concrete `BulkSMSAPIError` subclass was constructed. -/
inductive ApiErrKind where
  | generic
  | authentication
  | balance
  | invalidNumber
deriving DecidableEq

/-- A raised exception, as observed by a caller of the client.
`validationError` is `BulkSMSValidationError`, `networkError` is
`BulkSMSNetworkError` (its `response` attribute holds the raw response
text), `timeoutError` is `BulkSMSTimeoutError`, `apiError` is
`BulkSMSAPIError` or one of its subclasses (fields `message`,
`error_code`, `response`).  `attributeError` is a plain Python
`AttributeError` from a failed class-attribute lookup: it is raised by
`_handle_api_error` on the configuration-code branch, because
`BulkSMSConfigurationError` subclasses `BulkSMSError` (not
`BulkSMSAPIError`) and therefore does not have the `from_response`
classmethod that branch calls. -/
inductive RaisedExc where
  | validationError (msg : PyStr)
  | networkError (msg : PyStr) (errorCode : Option Int) (responseText : Option PyStr)
  | timeoutError (msg : PyStr)
  | apiError (kind : ApiErrKind) (msg : PyStr) (errorCode : Option Int)
      (response : Option ApiResponse)
  | attributeError (klass : PyStr) (attr : PyStr)
deriving DecidableEq

/-- Decimal rendering of an integer, for the f-strings of the source. -/
def intToStr (i : Int) : PyStr :=
  if i < 0 then '-' :: Nat.toDigits 10 i.natAbs else Nat.toDigits 10 i.natAbs

/-- `BulkSMSAPIError.ERROR_CODES`, the fixed code → description table. -/
def ERROR_CODES (c : Int) : Option PyStr :=
  if c = 202 then some "SMS Submitted Successfully".data
  else if c = 1001 then some "Invalid Number".data
  else if c = 1002 then some "Sender ID not correct/sender ID is disabled".data
  else if c = 1003 then some "Please Required all fields/Contact Your System Administrator".data
  else if c = 1005 then some "Internal Error".data
  else if c = 1006 then some "Balance Validity Not Available".data
  else if c = 1007 then some "Balance Insufficient".data
  else if c = 1011 then some "User ID not found".data
  else if c = 1012 then some "Masking SMS must be sent in Bengali".data
  else if c = 1013 then some "Sender ID has not found Gateway by api key".data
  else if c = 1014 then some "Sender Type Name not found using this sender by api key".data
  else if c = 1015 then some "Sender ID has not found Any Valid Gateway by api key".data
  else if c = 1016 then some "Sender Type Name Active Price Info not found by this sender id".data
  else if c = 1017 then some "Sender Type Name Price Info not found by this sender id".data
  else if c = 1018 then some "The Owner of this (username) Account is disabled".data
  else if c = 1019 then some "The (sender type name) Price of this (username) Account is disabled".data
  else if c = 1020 then some "The parent of this account is not found".data
  else if c = 1021 then some "The parent active (sender type name) price of this account is not found".data
  else if c = 1031 then some "Your Account Not Verified, Please Contact Administrator".data
  else if c = 1032 then some "IP Not whitelisted".data
  else none

/-- `BulkSMSAPIError.from_response(response_data)` followed by
`BulkSMSAPIError.__init__`, for `BulkSMSAPIError` and the three
subclasses that inherit the classmethod (`BulkSMSAuthenticationError`,
`BulkSMSBalanceError`, `BulkSMSInvalidNumberError`; the latter two pass
the message through to the same `__init__`).  `from_response` reads
`code` and `message` (default `'Unknown API error'`); `__init__`
replaces the message by the table entry plus the code whenever the code
is truthy and in `ERROR_CODES` (no table entry maps `0`, so truthiness
adds nothing beyond `None`-absence there). -/
def apiErrorFromResponse (kind : ApiErrKind) (rd : ApiResponse) : RaisedExc :=
  let suppliedMsg := rd.message.getD "Unknown API error".data
  let msg :=
    match rd.code with
    | some c =>
      match ERROR_CODES c with
      | some tableMsg => tableMsg ++ " (Code: ".data ++ intToStr c ++ ")".data
      | none => suppliedMsg
    | none => suppliedMsg
  .apiError kind msg rd.code (some rd)

/-! ## `bulksms/client.py` -/

/-- `BulkSMSClient._handle_api_error`.  The function always raises; its
result here is the exception raised.  On the configuration-code branch
the source line is `raise BulkSMSConfigurationError.from_response(...)`,
and since `BulkSMSConfigurationError` derives from `BulkSMSError` only,
the attribute lookup itself fails: Python raises
`AttributeError` before any `BulkSMSConfigurationError` is built. -/
def handle_api_error (error_code : Int) (response_data : ApiResponse) : RaisedExc :=
  if error_code ∈ ([1011, 1032] : List Int) then
    apiErrorFromResponse .authentication response_data
  else if error_code ∈ ([1006, 1007] : List Int) then
    apiErrorFromResponse .balance response_data
  else if error_code = 1001 then
    apiErrorFromResponse .invalidNumber response_data
  else if error_code ∈ ([1002, 1003, 1013, 1014, 1015, 1016, 1017, 1018, 1019, 1020, 1021, 1031] : List Int) then
    .attributeError "BulkSMSConfigurationError".data "from_response".data
  else
    apiErrorFromResponse .generic response_data

/-- A parsed response body: a JSON object (modelled by its inspected
fields) or some other JSON value, which the code returns untouched. -/
inductive PyJson where
  | dict (rd : ApiResponse)
  | other
deriving DecidableEq

/-- Outcome of `_make_request`: the parsed payload, or a raised
exception. -/
inductive RequestResult where
  | success (body : PyJson)
  | raised (e : RaisedExc)
deriving DecidableEq

/-- The response-code dispatch of `_make_request` (the
`isinstance(response_data, dict)` block).  Python evaluates
`error_code == 202` first and then `error_code and error_code != 202`;
an `error_code` of `None` (absent) or `0` (falsy) skips the error
branch, and the payload is returned. -/
def response_code_check (body : PyJson) : RequestResult :=
  match body with
  | .dict rd =>
    match rd.code with
    | some c =>
      if c = 202 then .success body
      else if c ≠ 0 then .raised (handle_api_error c rd)
      else .success body
    | none => .success body
  | .other => .success body

/-- What the HTTP transport produced for the single
`session.request(...)` call: an exception from `requests`, or a response
with a status code, raw text, and (when the text is valid JSON) the
parsed body. -/
inductive HttpResult where
  | timeout
  | connectionError (msg : PyStr)
  | requestException (msg : PyStr)
  | response (statusCode : Nat) (text : PyStr) (body : Option PyJson)
deriving DecidableEq

/-- `BulkSMSClient._make_request`, over an injected transport outcome:
timeout → `BulkSMSTimeoutError`; connection / other request errors →
`BulkSMSNetworkError`; HTTP status ≥ 400 → `BulkSMSNetworkError`
carrying status and raw text; unparsable body → the synthesized
envelope `{'message': response.text, 'code': None}`; then the
response-code dispatch. -/
def make_request (timeout : Nat) (transport : HttpResult) : RequestResult :=
  match transport with
  | .timeout =>
    .raised (.timeoutError ("Request timed out after ".data ++
      Nat.toDigits 10 timeout ++ " seconds".data))
  | .connectionError m =>
    .raised (.networkError ("Connection error: ".data ++ m) none none)
  | .requestException m =>
    .raised (.networkError ("Request error: ".data ++ m) none none)
  | .response statusCode text body =>
    if statusCode ≥ 400 then
      .raised (.networkError ("HTTP ".data ++ Nat.toDigits 10 statusCode ++
        ": ".data ++ text) (some statusCode) (some text))
    else
      response_code_check (body.getD (.dict ⟨none, some text⟩))

/-- Client configuration after `__init__` succeeded: the resolved API
key, default sender ID and timeout.  (The constructor-time checks and
the retry adapter configuration do not affect the operations verified
here.) -/
structure ClientCfg where
  api_key : PyStr
  sender_id : PyStr
  timeout : Nat
deriving DecidableEq

/-- The three endpoint URLs built from the base URL. -/
inductive Endpoint where
  | smsapi
  | smsapimany
  | getBalanceApi
deriving DecidableEq

/-- Outcome of a facade operation.  `noRequest e` — the operation raised
`e` before any network call was made; `posted method endpoint fields
result` — the operation issued exactly one HTTP request (the single
`_make_request` call of its straight-line body) with the given form
fields, and `result` is what that call produced.  `fields` keeps the
insertion order of the Python dict literal. -/
inductive SendOutcome where
  | noRequest (e : RaisedExc)
  | posted (method : PyStr) (endpoint : Endpoint)
      (fields : List (PyStr × PyStr)) (result : RequestResult)
deriving DecidableEq

/-- Python `a or b` on an optional string argument: `None` and the empty
string are falsy, so both select the default. -/
def pyOr (a : Option PyStr) (b : PyStr) : PyStr :=
  match a with
  | some s => if s.isEmpty then b else s
  | none => b

/-- The `phone_numbers: Union[str, List[str]]` argument of `send_sms`. -/
inductive PhonesArg where
  | single (s : PyStr)
  | list (l : List PyStr)
deriving DecidableEq

/-- `if isinstance(phone_numbers, str): phone_numbers = [phone_numbers]`. -/
def phonesList (a : PhonesArg) : List PyStr :=
  match a with
  | .single s => [s]
  | .list l => l

/-- The recipient loop of `send_sms`: validate each number and collect
`format_phone_number` of it; the first validation failure raises. -/
def validateAndFormat (numbers : List PyStr) : Except PyStr (List PyStr) :=
  match numbers with
  | [] => .ok []
  | n :: rest =>
    match validate_phone_number n with
    | some e => .error e
    | none =>
      match validateAndFormat rest with
      | .error e => .error e
      | .ok fs => .ok (format_phone_number n :: fs)

/-- `",".join(formatted_numbers)`. -/
def joinComma (l : List PyStr) : PyStr :=
  List.intercalate [','] l

/-- `BulkSMSClient.send_sms`.  The local
`sender_id = sender_id or self.sender_id` is written out as
`pyOr sender_id cfg.sender_id` at both of its uses. -/
def send_sms (cfg : ClientCfg) (phone_numbers : PhonesArg) (message : PyStr)
    (sender_id : Option PyStr) (transport : HttpResult) : SendOutcome :=
  match validate_message message with
  | some m => .noRequest (.validationError m)
  | none =>
    match validate_sender_id (pyOr sender_id cfg.sender_id) with
    | some m => .noRequest (.validationError m)
    | none =>
      match validateAndFormat (phonesList phone_numbers) with
      | .error m => .noRequest (.validationError m)
      | .ok formatted =>
        .posted "POST".data .smsapi
          [("api_key".data, cfg.api_key), ("senderid".data, pyOr sender_id cfg.sender_id),
           ("number".data, joinComma formatted), ("message".data, message)]
          (make_request cfg.timeout transport)

/-- One hexadecimal digit (lowercase, as `json.dumps` emits). -/
def hexDigit (n : Nat) : Char :=
  if n < 10 then Char.ofNat (48 + n) else Char.ofNat (87 + n)

/-- Four-digit hexadecimal rendering for a `\uXXXX` escape. -/
def hex4 (n : Nat) : PyStr :=
  [hexDigit (n / 4096 % 16), hexDigit (n / 256 % 16),
   hexDigit (n / 16 % 16), hexDigit (n % 16)]

/-- Escaping of one character by `json.dumps` with its default
`ensure_ascii=True`: short escapes for the JSON specials, `\uXXXX` for
every other character outside printable ASCII (surrogate pairs beyond
the BMP). -/
def jsonEscapeChar (c : Char) : PyStr :=
  if c == '"' then ['\\', '"']
  else if c == '\\' then ['\\', '\\']
  else if c == '\n' then ['\\', 'n']
  else if c == '\r' then ['\\', 'r']
  else if c == '\t' then ['\\', 't']
  else if c == '\x08' then ['\\', 'b']
  else if c == '\x0c' then ['\\', 'f']
  else if 32 ≤ c.toNat && c.toNat ≤ 126 then [c]
  else if c.toNat < 65536 then '\\' :: 'u' :: hex4 c.toNat
  else
    '\\' :: 'u' :: hex4 (55296 + (c.toNat - 65536) / 1024) ++
      '\\' :: 'u' :: hex4 (56320 + (c.toNat - 65536) % 1024)

/-- A JSON string literal for `s`. -/
def jsonString (s : PyStr) : PyStr :=
  '"' :: s.flatMap jsonEscapeChar ++ ['"']

/-- `json.dumps(formatted_messages)` for the list of
`{"to": ..., "message": ...}` dicts built by `send_bulk_sms`, with the
default separators `', '` and `': '`. -/
def json_dumps_messages (pairs : List (PyStr × PyStr)) : PyStr :=
  '[' :: List.intercalate ", ".data
    (pairs.map (fun p =>
      "\x7b\"to\": ".data ++ jsonString p.1 ++
      ", \"message\": ".data ++ jsonString p.2 ++ "\x7d".data)) ++ [']']

/-- One element of the `messages` argument of `send_bulk_sms`: either a
Python dict (of which only the presence and values of the keys `'to'`
and `'message'` are read) or a value of some other type. -/
inductive BulkItem where
  | dict (toField : Option PyStr) (messageField : Option PyStr)
  | nondict
deriving DecidableEq

/-- `isinstance(msg_data, dict) and 'to' in msg_data and 'message' in
msg_data`. -/
def itemHasKeys (item : BulkItem) : Bool :=
  match item with
  | .dict (some _) (some _) => true
  | _ => false

/-- The per-pair loop of `send_bulk_sms`: shape check, phone and message
validation, then collection of the formatted pair; the first failure
raises (a `BulkSMSValidationError` in every case). -/
def processBulkItems (items : List BulkItem) : Except PyStr (List (PyStr × PyStr)) :=
  match items with
  | [] => .ok []
  | .dict (some phone) (some msg) :: rest =>
    match validate_phone_number phone with
    | some e => .error e
    | none =>
      match validate_message msg with
      | some e => .error e
      | none =>
        match processBulkItems rest with
        | .error e => .error e
        | .ok fs => .ok ((format_phone_number phone, msg) :: fs)
  | _ :: _ =>
    .error "Each message must be a dictionary with 'to' and 'message' keys".data

/-- `BulkSMSClient.send_bulk_sms`.  As in `send_sms`, the local
`sender_id = sender_id or self.sender_id` is written out at both uses. -/
def send_bulk_sms (cfg : ClientCfg) (messages : List BulkItem)
    (sender_id : Option PyStr) (transport : HttpResult) : SendOutcome :=
  if messages.isEmpty then
    .noRequest (.validationError "Messages list cannot be empty".data)
  else
    match validate_sender_id (pyOr sender_id cfg.sender_id) with
    | some m => .noRequest (.validationError m)
    | none =>
      match processBulkItems messages with
      | .error m => .noRequest (.validationError m)
      | .ok formatted =>
        .posted "POST".data .smsapimany
          [("api_key".data, cfg.api_key), ("senderid".data, pyOr sender_id cfg.sender_id),
           ("messages".data, json_dumps_messages formatted)]
          (make_request cfg.timeout transport)

/-- `BulkSMSClient.get_balance`: a single GET with only the API key. -/
def get_balance (cfg : ClientCfg) (transport : HttpResult) : SendOutcome :=
  .posted "GET".data .getBalanceApi [("api_key".data, cfg.api_key)]
    (make_request cfg.timeout transport)

/-- The f-string `f"Your {brand_name} OTP is {otp_code}"`. -/
def otpMessage (brand_name : PyStr) (otp_code : PyStr) : PyStr :=
  "Your ".data ++ brand_name ++ " OTP is ".data ++ otp_code

/-- `BulkSMSClient.send_otp`: composes the message and delegates to
`send_sms`; no OTP-specific validation of its own. -/
def send_otp (cfg : ClientCfg) (phone_number : PyStr) (otp_code : PyStr)
    (brand_name : PyStr) (sender_id : Option PyStr) (transport : HttpResult) : SendOutcome :=
  send_sms cfg (.single phone_number) (otpMessage brand_name otp_code) sender_id transport

/-- `BulkSMSClient.test_connection`: `get_balance` inside
`try: ... return True / except Exception: return False`. -/
def test_connection (cfg : ClientCfg) (transport : HttpResult) : Bool :=
  match make_request cfg.timeout transport with
  | .success _ => true
  | .raised _ => false

/-- Projection: the transport-level result surfaced by a facade
operation, `none` when the operation raised before its network call. -/
def postedResult (o : SendOutcome) : Option RequestResult :=
  match o with
  | .posted _ _ _ r => some r
  | .noRequest _ => none

/-! ## Sample values used by concrete evaluations -/

/-- A configured client, as in the repository test fixtures. -/
def sampleCfg : ClientCfg :=
  ⟨"test_api_key".data, "TestSender".data, 30⟩

/-- A transport reply: HTTP 200 with body `{"code": 202, "message": "ok"}`. -/
def sampleOk202 : HttpResult :=
  .response 200 "raw".data (some (.dict ⟨some 202, some "ok".data⟩))

/-! ## Helper lemmas -/

theorem dropWhile_eq_nil_iff_all {p : Char → Bool} {l : PyStr} :
    l.dropWhile p = [] ↔ l.all p = true := by
  induction l with
  | nil => simp
  | cons a l ih =>
    cases h : p a <;> simp [List.dropWhile_cons, h, ih]

theorem all_dropWhile_iff {p : Char → Bool} {l : PyStr} :
    (l.dropWhile p).all p = true ↔ l.all p = true := by
  induction l with
  | nil => simp
  | cons a l ih =>
    cases h : p a <;> simp [List.dropWhile_cons, h, ih]

theorem pyStrip_eq_nil_iff (s : PyStr) : pyStrip s = [] ↔ s.all isPySpace = true := by
  unfold pyStrip
  rw [List.reverse_eq_nil_iff, dropWhile_eq_nil_iff_all, List.all_reverse,
    all_dropWhile_iff]

theorem validate_message_isSome (m : PyStr) :
    (validate_message m).isSome = true ↔
      m = [] ∨ m.all isPySpace = true ∨ 1530 < m.length := by
  unfold validate_message
  by_cases h1 : m.isEmpty
  · simp [h1, List.isEmpty_iff.mp h1]
  · by_cases h2 : (pyStrip m).isEmpty
    · simp [h1, h2, (pyStrip_eq_nil_iff m).mp (List.isEmpty_iff.mp h2)]
    · by_cases h3 : m.length > 1530
      · simp [h1, h2, h3]
      · have hall : m.all isPySpace = false := by
          cases hc : m.all isPySpace
          · rfl
          · exact absurd (List.isEmpty_iff.mpr ((pyStrip_eq_nil_iff m).mpr hc)) h2
        have hne : ¬ m = [] := fun hm => h1 (List.isEmpty_iff.mpr hm)
        simp [h1, h2, h3, hall, hne]

theorem replicate_x_not_space (n : Nat) (hn : 0 < n) :
    (List.replicate n 'x').all isPySpace = false := by
  cases n with
  | zero => omega
  | succ k => simp [List.replicate_succ, isPySpace]

/-! ## Claim theorems -/

/-- The claim-side step function of C4: breakpoints ≤160→1, ≤306→2,
≤459→3, ≤612→4, ≤765→5, ≤918→6, ≤1071→7, ≤1224→8, ≤1377→9, ≤1530→10,
else 11, applied to the message length. -/
def C4step (n : Nat) : Nat :=
  if n ≤ 160 then 1
  else if n ≤ 306 then 2
  else if n ≤ 459 then 3
  else if n ≤ 612 then 4
  else if n ≤ 765 then 5
  else if n ≤ 918 then 6
  else if n ≤ 1071 then 7
  else if n ≤ 1224 then 8
  else if n ≤ 1377 then 9
  else if n ≤ 1530 then 10
  else 11

/-- C4: `validate_message` raises exactly on the empty, all-whitespace,
or longer-than-1530 message, and `get_message_parts` is the step
function of the length with the documented breakpoints; a message of
length 1530 validates and occupies 10 segments, one of length 1531
fails validation. -/
theorem C4_message_validation_and_parts :
    (∀ m : PyStr, (validate_message m).isSome = true ↔
      m = [] ∨ m.all isPySpace = true ∨ 1530 < m.length)
  ∧ (∀ m : PyStr, get_message_parts m = C4step m.length)
  ∧ validate_message (List.replicate 1530 'x') = none
  ∧ get_message_parts (List.replicate 1530 'x') = 10
  ∧ (validate_message (List.replicate 1531 'x')).isSome = true := by
  refine ⟨validate_message_isSome, fun m => rfl, ?_, ?_, ?_⟩
  · have h := validate_message_isSome (List.replicate 1530 'x')
    rw [Option.eq_none_iff_forall_not_mem]
    intro a ha
    have : (validate_message (List.replicate 1530 'x')).isSome = true := by
      rw [ha]; rfl
    rcases h.mp this with h' | h' | h'
    · simpa using congrArg List.length h'
    · rw [replicate_x_not_space 1530 (by omega)] at h'; exact Bool.false_ne_true h'
    · simp at h'
  · simp [get_message_parts, C4step]
  · rw [validate_message_isSome]
    right; right; simp

/-- C5: `validate_sender_id` raises exactly on the empty string, a
string longer than 20 characters, or a string with a character outside
`[a-zA-Z0-9\s\-\.]` (the source regex class: letters, digits,
whitespace, hyphen, dot); 20 allowed characters pass, 21 fail, and a
disallowed character such as `_` or `#` fails at any length. -/
theorem C5_sender_id_validation :
    (∀ s : PyStr, (validate_sender_id s).isSome = true ↔
      s = [] ∨ 20 < s.length ∨ s.all senderIdAllowed = false)
  ∧ validate_sender_id (List.replicate 20 'A') = none
  ∧ (validate_sender_id (List.replicate 21 'A')).isSome = true
  ∧ (validate_sender_id "AB_C".data).isSome = true
  ∧ (validate_sender_id "#".data).isSome = true := by
  refine ⟨fun s => ?_, by decide, by decide, by decide, by decide⟩
  unfold validate_sender_id
  by_cases h1 : s.isEmpty
  · simp [h1, List.isEmpty_iff.mp h1]
  · by_cases h2 : s.length > 20
    · simp [h1, h2]
    · cases h3 : s.all senderIdAllowed <;>
        simp [h1, h2, h3, List.isEmpty_iff.not.mp h1, Nat.not_lt.mp h2]

/-- C1: on the documented provider codes, `_handle_api_error` raises the
documented authentication / balance / invalid-number failures carrying
the original code and the raw payload — but on every
configuration-table code (1002, 1003, 1013–1021, 1031) it raises a
Python `AttributeError` instead of the documented Configuration
failure, because `BulkSMSConfigurationError` does not inherit the
`from_response` classmethod. -/
theorem C1_error_mapper_eval :
    handle_api_error 1011 ⟨some 1011, some "m".data⟩
      = .apiError .authentication "User ID not found (Code: 1011)".data
          (some 1011) (some ⟨some 1011, some "m".data⟩)
  ∧ handle_api_error 1032 ⟨some 1032, some "m".data⟩
      = .apiError .authentication "IP Not whitelisted (Code: 1032)".data
          (some 1032) (some ⟨some 1032, some "m".data⟩)
  ∧ handle_api_error 1006 ⟨some 1006, some "m".data⟩
      = .apiError .balance "Balance Validity Not Available (Code: 1006)".data
          (some 1006) (some ⟨some 1006, some "m".data⟩)
  ∧ handle_api_error 1007 ⟨some 1007, some "m".data⟩
      = .apiError .balance "Balance Insufficient (Code: 1007)".data
          (some 1007) (some ⟨some 1007, some "m".data⟩)
  ∧ handle_api_error 1001 ⟨some 1001, some "m".data⟩
      = .apiError .invalidNumber "Invalid Number (Code: 1001)".data
          (some 1001) (some ⟨some 1001, some "m".data⟩)
  ∧ (([1002, 1003, 1013, 1014, 1015, 1016, 1017, 1018, 1019, 1020, 1021, 1031] : List Int).all
      (fun c => handle_api_error c ⟨some c, some "m".data⟩
        == .attributeError "BulkSMSConfigurationError".data "from_response".data)) = true
  ∧ handle_api_error 9999 ⟨some 9999, some "m".data⟩
      = .apiError .generic "m".data (some 9999) (some ⟨some 9999, some "m".data⟩) := by
  refine ⟨by decide, by decide, by decide, by decide, by decide, by decide, by decide⟩

/-- C2 counterexample: a parsed response whose `code` field is present
and equal to `0` — present and not `202` — is returned as success by
the request executor: `0` is falsy in Python, so the
`elif error_code and error_code != 202` guard skips the error mapper. -/
theorem C2_counterexample_code_zero :
    make_request 30 (.response 200 "raw".data (some (.dict ⟨some 0, some "unknown".data⟩)))
      = .success (.dict ⟨some 0, some "unknown".data⟩) := by
  decide

/-- C7: at the failing input of the claim, `send_sms("01712345678",
"Hello")` issues one POST to `smsapi` with the four documented fields,
and with the provider reply `{"code": 202, "message": "ok"}` returns
that payload — but the body's `number` field is `"88001712345678"`
(the source prepends the literal `'880'` to the whole `01…` number,
keeping its leading zero), not the `"8801712345678"` asserted by the
claim and by the repository's own `test_phone_number_formatting`. -/
theorem C7_send_sms_number_field_eval :
    send_sms sampleCfg (.single "01712345678".data) "Hello".data none sampleOk202
      = .posted "POST".data .smsapi
          [("api_key".data, "test_api_key".data), ("senderid".data, "TestSender".data),
           ("number".data, "88001712345678".data), ("message".data, "Hello".data)]
          (.success (.dict ⟨some 202, some "ok".data⟩))
  ∧ format_phone_number "01712345678".data = "88001712345678".data
  ∧ "88001712345678".data ≠ "8801712345678".data := by
  refine ⟨by decide, by decide, by decide⟩

/-- C10: `send_otp` composes `"Your {brand_name} OTP is {otp_code}"`
and delegates to `send_sms` with no OTP-specific validation: an empty
OTP, a non-numeric OTP, and a 51-character brand name — all rejected by
the unused helper `validate_otp_format` — are each accepted end to end
whenever the composed message passes the generic message validation. -/
theorem C10_send_otp_no_otp_validation :
    (∀ cfg phone otp brand sid t, send_otp cfg phone otp brand sid t
        = send_sms cfg (.single phone) (otpMessage brand otp) sid t)
  ∧ (validate_otp_format [] "X".data).isSome = true
  ∧ (validate_otp_format "ABCD".data "X".data).isSome = true
  ∧ (validate_otp_format "123456".data (List.replicate 51 'B')).isSome = true
  ∧ postedResult (send_otp sampleCfg "01712345678".data [] "X".data none sampleOk202)
      = some (.success (.dict ⟨some 202, some "ok".data⟩))
  ∧ postedResult (send_otp sampleCfg "01712345678".data "ABCD".data "X".data none sampleOk202)
      = some (.success (.dict ⟨some 202, some "ok".data⟩))
  ∧ postedResult (send_otp sampleCfg "01712345678".data "123456".data
        (List.replicate 51 'B') none sampleOk202)
      = some (.success (.dict ⟨some 202, some "ok".data⟩)) := by
  refine ⟨fun cfg phone otp brand sid t => rfl, by decide, by decide, by decide,
    by decide, by decide, by decide⟩

/-- The provider codes given a specific branch by `_handle_api_error`;
every other code falls through to the generic branch. -/
def mappedCodes : List Int :=
  [1011, 1032, 1006, 1007, 1001,
   1002, 1003, 1013, 1014, 1015, 1016, 1017, 1018, 1019, 1020, 1021, 1031]

/-- C2 (amended): the executor raises for every parsed response whose
`code` is present, nonzero, and not 202 — delegating to
`_handle_api_error` — and a code outside the mapped table falls through
to the generic `BulkSMSAPIError`; the payload is returned as success
exactly when the code is 202, absent, or the falsy `0`. -/
theorem C2_amended_dispatch :
    (∀ (rd : ApiResponse) (c : Int), rd.code = some c → c ≠ 202 → c ≠ 0 →
      response_code_check (.dict rd) = .raised (handle_api_error c rd))
  ∧ (∀ rd : ApiResponse, rd.code = none →
      response_code_check (.dict rd) = .success (.dict rd))
  ∧ (∀ rd : ApiResponse, rd.code = some 202 ∨ rd.code = some 0 →
      response_code_check (.dict rd) = .success (.dict rd))
  ∧ (∀ (rd : ApiResponse) (c : Int), rd.code = some c → c ≠ 202 → c ≠ 0 →
      c ∉ mappedCodes →
      response_code_check (.dict rd) = .raised (apiErrorFromResponse .generic rd)) := by
  refine ⟨?_, ?_, ?_, ?_⟩
  · intro rd c hc h202 h0
    simp [response_code_check, hc, h202, h0]
  · intro rd hc
    simp [response_code_check, hc]
  · intro rd hc
    rcases hc with hc | hc <;> simp [response_code_check, hc]
  · intro rd c hc h202 h0 hmem
    simp only [mappedCodes, List.mem_cons, List.not_mem_nil, or_false, not_or] at hmem
    obtain ⟨n1, n2, n3, n4, n5, n6, n7, n8, n9, n10, n11, n12, n13, n14, n15, n16, n17⟩ := hmem
    simp [response_code_check, hc, h202, h0, handle_api_error,
      n1, n2, n3, n4, n5, n6, n7, n8, n9, n10, n11, n12, n13, n14, n15, n16, n17]

/-- Witness for `C2_amended_dispatch` at concrete inputs: the unknown
code 9999 raises the generic failure, 1007 delegates to the mapper, an
absent code and code 202 return the payload. -/
theorem C2_amended_dispatch_witness :
    response_code_check (.dict ⟨some 9999, some "m".data⟩)
      = .raised (apiErrorFromResponse .generic ⟨some 9999, some "m".data⟩)
  ∧ response_code_check (.dict ⟨some 1007, some "m".data⟩)
      = .raised (handle_api_error 1007 ⟨some 1007, some "m".data⟩)
  ∧ response_code_check (.dict ⟨none, some "m".data⟩)
      = .success (.dict ⟨none, some "m".data⟩)
  ∧ response_code_check (.dict ⟨some 202, some "ok".data⟩)
      = .success (.dict ⟨some 202, some "ok".data⟩) :=
  ⟨C2_amended_dispatch.2.2.2 ⟨some 9999, some "m".data⟩ 9999 rfl
      (by decide) (by decide) (by decide),
   C2_amended_dispatch.1 ⟨some 1007, some "m".data⟩ 1007 rfl (by decide) (by decide),
   C2_amended_dispatch.2.1 ⟨none, some "m".data⟩ rfl,
   C2_amended_dispatch.2.2.1 ⟨some 202, some "ok".data⟩ (Or.inl rfl)⟩

/-- C9: `test_connection` returns `true` exactly when the balance call
succeeds and `false` exactly when it raises — by construction it never
raises — while `get_balance` and the three send operations surface the
transport outcome of their single `_make_request` call unchanged
(they raise before the call or propagate its result; only
`test_connection` converts a failure into a return value). -/
theorem C9_test_connection_swallows (cfg : ClientCfg) (t : HttpResult) :
    (test_connection cfg t = true ↔ ∃ b, make_request cfg.timeout t = .success b)
  ∧ (test_connection cfg t = false ↔ ∃ e, make_request cfg.timeout t = .raised e)
  ∧ get_balance cfg t = .posted "GET".data .getBalanceApi
      [("api_key".data, cfg.api_key)] (make_request cfg.timeout t)
  ∧ (∀ pa m sid, postedResult (send_sms cfg pa m sid t) = none
      ∨ postedResult (send_sms cfg pa m sid t) = some (make_request cfg.timeout t))
  ∧ (∀ items sid, postedResult (send_bulk_sms cfg items sid t) = none
      ∨ postedResult (send_bulk_sms cfg items sid t) = some (make_request cfg.timeout t))
  ∧ (∀ p o b sid, postedResult (send_otp cfg p o b sid t) = none
      ∨ postedResult (send_otp cfg p o b sid t) = some (make_request cfg.timeout t)) := by
  have hsms : ∀ pa m sid, postedResult (send_sms cfg pa m sid t) = none
      ∨ postedResult (send_sms cfg pa m sid t) = some (make_request cfg.timeout t) := by
    intro pa m sid
    unfold send_sms
    cases validate_message m with
    | some e => exact Or.inl rfl
    | none =>
      cases validate_sender_id (pyOr sid cfg.sender_id) with
      | some e => exact Or.inl rfl
      | none =>
        cases validateAndFormat (phonesList pa) with
        | error e => exact Or.inl rfl
        | ok fs => exact Or.inr rfl
  refine ⟨?_, ?_, rfl, hsms, ?_, fun p o b sid => hsms (.single p) (otpMessage b o) sid⟩
  · cases h : make_request cfg.timeout t <;> simp [test_connection, h]
  · cases h : make_request cfg.timeout t <;> simp [test_connection, h]
  · intro items sid
    unfold send_bulk_sms
    by_cases he : items.isEmpty
    · simp [he, postedResult]
    · simp only [he, Bool.false_eq_true, if_false]
      cases validate_sender_id (pyOr sid cfg.sender_id) with
      | some e => exact Or.inl rfl
      | none =>
        cases processBulkItems items with
        | error e => exact Or.inl rfl
        | ok fs => exact Or.inr rfl

/-- The accepted family of claim C3, spelled from the claim: the
remainder after cleaning is `8801`, an operator digit `3..9`, and eight
digits (13 characters total), or `01`, an operator digit, and eight
digits (11 characters total). -/
def C3family (t : PyStr) : Prop :=
  (∃ d rest, t = '8' :: '8' :: '0' :: '1' :: d :: rest ∧
    isOperatorDigit d = true ∧ rest.length = 8 ∧ rest.all isAsciiDigit = true)
  ∨ (∃ d rest, t = '0' :: '1' :: d :: rest ∧
    isOperatorDigit d = true ∧ rest.length = 8 ∧ rest.all isAsciiDigit = true)

theorem matchers_iff_C3family (t : PyStr) :
    (matches8801 t || matches01 t) = true ↔ C3family t := by
  rcases t with _ | ⟨a, _ | ⟨b, _ | ⟨c, _ | ⟨d, _ | ⟨e, rest⟩⟩⟩⟩⟩ <;>
    simp [matches8801, matches01, C3family, and_assoc]

/-- C3: `validate_phone_number` raises exactly on the empty string and
on every string whose remainder — after removing whitespace and hyphens
and one optional leading `+` — is not `8801[3-9]` plus eight digits
(13 characters) or `01[3-9]` plus eight digits (11 characters); every
string of the accepted family validates. -/
theorem C3_phone_validation (s : PyStr) :
    (validate_phone_number s).isSome = true ↔
      s = [] ∨ ¬ C3family (dropLeadingPlus (removeSpaceHyphen s)) := by
  unfold validate_phone_number
  by_cases h1 : s.isEmpty
  · simp [h1, List.isEmpty_iff.mp h1]
  · have hne : ¬ s = [] := fun hm => h1 (List.isEmpty_iff.mpr hm)
    cases h2 : (matches8801 (dropLeadingPlus (removeSpaceHyphen s)) ||
        matches01 (dropLeadingPlus (removeSpaceHyphen s))) with
    | false =>
      have : ¬ C3family (dropLeadingPlus (removeSpaceHyphen s)) := by
        rw [← matchers_iff_C3family, h2]; exact Bool.false_ne_true
      simp [h1, h2, hne, this]
    | true =>
      have := (matchers_iff_C3family (dropLeadingPlus (removeSpaceHyphen s))).mp h2
      simp [h1, h2, hne, this]

/-! ### Lemmas about the formatter -/

theorem removeSHP_idem (x : PyStr) :
    removeSpaceHyphenPlus (removeSpaceHyphenPlus x) = removeSpaceHyphenPlus x := by
  unfold removeSpaceHyphenPlus
  rw [List.filter_filter]
  simp

theorem removeSHP_cons880 (l : PyStr) :
    removeSpaceHyphenPlus ('8' :: '8' :: '0' :: l) =
      '8' :: '8' :: '0' :: removeSpaceHyphenPlus l := by
  unfold removeSpaceHyphenPlus
  rw [List.filter_cons_of_pos (by decide), List.filter_cons_of_pos (by decide),
    List.filter_cons_of_pos (by decide)]

theorem startsWith01_cons8 (l : PyStr) : startsWith01 ('8' :: '8' :: '0' :: l) = false := by
  simp [startsWith01]

/-- Unfolded form of `format_phone_number`. -/
theorem format_phone_number_eq (x : PyStr) :
    format_phone_number x =
      if startsWith01 (removeSpaceHyphenPlus x) = true then
        '8' :: '8' :: '0' :: removeSpaceHyphenPlus x
      else removeSpaceHyphenPlus x := rfl

/-- A character kept by the phone-validation cleaning but removed by the
formatter cleaning can only be `'+'`. -/
theorem removeSHP_eq_filter_plus (x : PyStr) :
    removeSpaceHyphenPlus x = (removeSpaceHyphen x).filter (fun c => !(c == '+')) := by
  unfold removeSpaceHyphenPlus removeSpaceHyphen
  rw [List.filter_filter]
  congr 1
  funext c
  cases h1 : isPySpace c <;> cases h2 : (c == '-') <;> cases h3 : (c == '+') <;>
    simp [h1, h2, h3]

theorem isOperatorDigit_isAsciiDigit (c : Char) (h : isOperatorDigit c = true) :
    isAsciiDigit c = true := by
  simp [isOperatorDigit] at h
  simp [isAsciiDigit]
  omega

/-- A whitespace character has a code point below 48 (so it is never an
ASCII digit). -/
theorem isPySpace_toNat (c : Char) (h : isPySpace c = true) : c.toNat < 48 := by
  simp only [isPySpace, Bool.or_eq_true, beq_iff_eq] at h
  casesm* _ ∨ _ <;> subst_vars <;> decide

/-- An ASCII digit survives the formatter cleaning. -/
theorem digit_kept (c : Char) (h : isAsciiDigit c = true) :
    (!(isPySpace c || c == '-' || c == '+')) = true := by
  simp only [isAsciiDigit, Bool.and_eq_true, decide_eq_true_eq] at h
  have hs : isPySpace c = false := by
    cases hc : isPySpace c with
    | false => rfl
    | true => exact absurd (isPySpace_toNat c hc) (by omega)
  have hm : (c == '-') = false := by
    cases hc : (c == '-') with
    | false => rfl
    | true => exact absurd h (by rw [beq_iff_eq] at hc; subst hc; decide)
  have hp : (c == '+') = false := by
    cases hc : (c == '+') with
    | false => rfl
    | true => exact absurd h (by rw [beq_iff_eq] at hc; subst hc; decide)
  simp [hs, hm, hp]

theorem digit_not_plus (c : Char) (h : isAsciiDigit c = true) : (c == '+') = false := by
  cases hc : (c == '+') with
  | false => rfl
  | true =>
    rw [beq_iff_eq] at hc
    subst hc
    exact absurd h (by decide)

/-- A string of ASCII digits is unchanged by the formatter cleaning. -/
theorem removeSHP_of_digits (l : PyStr) (h : l.all isAsciiDigit = true) :
    removeSpaceHyphenPlus l = l := by
  unfold removeSpaceHyphenPlus
  rw [List.filter_eq_self]
  intro c hc
  exact digit_kept c (List.all_eq_true.mp h c hc)

theorem filter_plus_of_digits (l : PyStr) (h : l.all isAsciiDigit = true) :
    l.filter (fun c => !(c == '+')) = l := by
  rw [List.filter_eq_self]
  intro c hc
  rw [digit_not_plus c (List.all_eq_true.mp h c hc)]
  rfl

/-- The two accepted patterns consist of ASCII digits only. -/
theorem C3family_all_digits (t : PyStr) (h : C3family t) : t.all isAsciiDigit = true := by
  rcases h with ⟨d, rest, rfl, hop, _, hall⟩ | ⟨d, rest, rfl, hop, _, hall⟩ <;>
    simp [List.all_cons, isOperatorDigit_isAsciiDigit d hop, hall] <;> decide

/-- C6: `format_phone_number` is idempotent on every string; a
digits-only string already carrying the `880` prefix is returned
unchanged; and every string accepted by `validate_phone_number` is
formatted to a digits-only string carrying the `880` prefix with no
separators. -/
theorem C6_format_idempotent :
    (∀ x : PyStr, format_phone_number (format_phone_number x) = format_phone_number x)
  ∧ (∀ x : PyStr, x.all isAsciiDigit = true → (∃ r, x = '8' :: '8' :: '0' :: r) →
      format_phone_number x = x)
  ∧ (∀ x : PyStr, validate_phone_number x = none →
      (format_phone_number x).all isAsciiDigit = true ∧
        ∃ r, format_phone_number x = '8' :: '8' :: '0' :: r) := by
  refine ⟨?_, ?_, ?_⟩
  · intro x
    rw [format_phone_number_eq x]
    by_cases h : startsWith01 (removeSpaceHyphenPlus x) = true
    · rw [if_pos h, format_phone_number_eq, removeSHP_cons880, removeSHP_idem,
        startsWith01_cons8]
      simp
    · rw [if_neg h, format_phone_number_eq, removeSHP_idem, if_neg h]
  · rintro x hdig ⟨r, rfl⟩
    rw [format_phone_number_eq, removeSHP_of_digits _ hdig, startsWith01_cons8]
    simp
  · intro x hv
    have hfam : C3family (dropLeadingPlus (removeSpaceHyphen x)) := by
      unfold validate_phone_number at hv
      by_cases h1 : x.isEmpty
      · rw [if_pos h1] at hv; exact absurd hv (by simp)
      · rw [if_neg h1] at hv
        by_cases h2 : (matches8801 (dropLeadingPlus (removeSpaceHyphen x)) ||
            matches01 (dropLeadingPlus (removeSpaceHyphen x))) = true
        · exact (matchers_iff_C3family _).mp h2
        · rw [if_neg h2] at hv; exact absurd hv (by simp)
    have hdig : (dropLeadingPlus (removeSpaceHyphen x)).all isAsciiDigit = true :=
      C3family_all_digits _ hfam
    have hclean : removeSpaceHyphenPlus x = dropLeadingPlus (removeSpaceHyphen x) := by
      rw [removeSHP_eq_filter_plus]
      cases hu : removeSpaceHyphen x with
      | nil => simp [dropLeadingPlus]
      | cons c r =>
        by_cases hp : (c == '+') = true
        · have hd : dropLeadingPlus (c :: r) = r := by simp [dropLeadingPlus, hp]
          rw [hd]
          rw [hu, hd] at hdig
          rw [List.filter_cons_of_neg (by simp [hp]), filter_plus_of_digits r hdig]
        · have hd : dropLeadingPlus (c :: r) = c :: r := by simp [dropLeadingPlus, hp]
          rw [hd]
          rw [hu, hd] at hdig
          exact filter_plus_of_digits _ hdig
    rcases hfam with ⟨d, rest, hshape, hrest⟩ | ⟨d, rest, hshape, hrest⟩
    · rw [format_phone_number_eq, hclean, hshape,
        if_neg (by rw [startsWith01_cons8]; simp)]
      rw [hshape] at hdig
      exact ⟨hdig, '1' :: d :: rest, rfl⟩
    · rw [format_phone_number_eq, hclean, hshape,
        if_pos (by simp [startsWith01])]
      rw [hshape] at hdig
      refine ⟨?_, '0' :: '1' :: d :: rest, rfl⟩
      simp only [List.all_cons, Bool.and_eq_true] at hdig ⊢
      exact ⟨by decide, by decide, by decide, hdig⟩

/-- Witness for `C6_format_idempotent` at concrete inputs. -/
theorem C6_format_idempotent_witness :
    format_phone_number (format_phone_number "017-1234 5678".data)
      = format_phone_number "017-1234 5678".data
  ∧ format_phone_number "8801712345678".data = "8801712345678".data
  ∧ ((format_phone_number "+880 1712-345678".data).all isAsciiDigit = true ∧
      ∃ r, format_phone_number "+880 1712-345678".data = '8' :: '8' :: '0' :: r) :=
  ⟨C6_format_idempotent.1 "017-1234 5678".data,
   C6_format_idempotent.2.1 "8801712345678".data (by decide) ⟨"1712345678".data, by decide⟩,
   C6_format_idempotent.2.2 "+880 1712-345678".data (by decide)⟩

/-- Witness for `C9_test_connection_swallows` at concrete transports: a
balance failure becomes `false`, not an exception; success becomes
`true`. -/
theorem C9_test_connection_swallows_witness :
    test_connection sampleCfg
      (.response 200 "err".data (some (.dict ⟨some 1007, some "Balance Insufficient".data⟩)))
      = false
  ∧ test_connection sampleCfg sampleOk202 = true :=
  ⟨(C9_test_connection_swallows sampleCfg _).2.1.mpr ⟨_, rfl⟩,
   (C9_test_connection_swallows sampleCfg sampleOk202).1.mpr ⟨_, rfl⟩⟩

/-- If some element of the batch is not a dict with both `'to'` and
`'message'` keys, the per-pair loop raises (whatever earlier elements
do). -/
theorem processBulkItems_error_of_bad (items : List BulkItem)
    (h : ∃ i ∈ items, itemHasKeys i = false) :
    ∃ m, processBulkItems items = .error m := by
  induction items with
  | nil =>
    rcases h with ⟨i, hi, _⟩
    exact absurd hi (List.not_mem_nil i)
  | cons it rest ih =>
    rcases h with ⟨i, hi, hbad⟩
    rcases List.mem_cons.mp hi with rfl | hmem
    · cases i with
      | dict a b =>
        cases a with
        | none => exact ⟨_, rfl⟩
        | some p =>
          cases b with
          | none => exact ⟨_, rfl⟩
          | some msg => simp [itemHasKeys] at hbad
      | nondict => exact ⟨_, rfl⟩
    · cases it with
      | dict a b =>
        cases a with
        | none => exact ⟨_, rfl⟩
        | some p =>
          cases b with
          | none => exact ⟨_, rfl⟩
          | some msg =>
            obtain ⟨m, hm⟩ := ih ⟨i, hmem, hbad⟩
            cases hv : validate_phone_number p with
            | some e => exact ⟨e, by simp [processBulkItems, hv]⟩
            | none =>
              cases hv2 : validate_message msg with
              | some e => exact ⟨e, by simp [processBulkItems, hv, hv2]⟩
              | none => exact ⟨m, by simp [processBulkItems, hv, hv2, hm]⟩
      | nondict => exact ⟨_, rfl⟩

/-- C8: `send_bulk_sms` raises a `BulkSMSValidationError` before any
network call when the batch is empty or when any element is not a dict
carrying both `'to'` and `'message'`; otherwise, once every pair has
been independently validated and formatted, the whole batch is
serialized into the single `messages` form field of one POST to the
`smsapimany` endpoint. -/
theorem C8_bulk_validation :
    (∀ cfg sid t, send_bulk_sms cfg [] sid t
        = .noRequest (.validationError "Messages list cannot be empty".data))
  ∧ (∀ cfg items sid t, (∃ i ∈ items, itemHasKeys i = false) →
      ∃ m, send_bulk_sms cfg items sid t = .noRequest (.validationError m))
  ∧ (∀ cfg items sid t fs, items ≠ [] →
      validate_sender_id (pyOr sid cfg.sender_id) = none →
      processBulkItems items = .ok fs →
      send_bulk_sms cfg items sid t
        = .posted "POST".data .smsapimany
            [("api_key".data, cfg.api_key), ("senderid".data, pyOr sid cfg.sender_id),
             ("messages".data, json_dumps_messages fs)]
            (make_request cfg.timeout t)) := by
  refine ⟨fun cfg sid t => rfl, ?_, ?_⟩
  · intro cfg items sid t h
    have hne : items.isEmpty = false := by
      rcases h with ⟨i, hi, _⟩
      cases items with
      | nil => exact absurd hi (List.not_mem_nil i)
      | cons a l => rfl
    unfold send_bulk_sms
    rw [hne]
    simp only [Bool.false_eq_true, if_false]
    cases validate_sender_id (pyOr sid cfg.sender_id) with
    | some e => exact ⟨e, rfl⟩
    | none =>
      obtain ⟨m, hm⟩ := processBulkItems_error_of_bad items h
      rw [hm]
      exact ⟨m, rfl⟩
  · intro cfg items sid t fs hne hsid hok
    have hne2 : items.isEmpty = false := by
      cases items with
      | nil => exact absurd rfl hne
      | cons a l => rfl
    unfold send_bulk_sms
    rw [hne2]
    simp only [Bool.false_eq_true, if_false]
    rw [hsid, hok]

/-- Witness for `C8_bulk_validation` at concrete inputs. -/
theorem C8_bulk_validation_witness :
    send_bulk_sms sampleCfg [] none sampleOk202
      = .noRequest (.validationError "Messages list cannot be empty".data)
  ∧ (∃ m, send_bulk_sms sampleCfg [.nondict] none sampleOk202
      = .noRequest (.validationError m))
  ∧ send_bulk_sms sampleCfg [.dict (some "01712345678".data) (some "Hi".data)] none sampleOk202
      = .posted "POST".data .smsapimany
          [("api_key".data, sampleCfg.api_key),
           ("senderid".data, pyOr none sampleCfg.sender_id),
           ("messages".data, json_dumps_messages [("88001712345678".data, "Hi".data)])]
          (make_request sampleCfg.timeout sampleOk202) :=
  ⟨C8_bulk_validation.1 sampleCfg none sampleOk202,
   C8_bulk_validation.2.1 sampleCfg [.nondict] none sampleOk202
     ⟨.nondict, by simp, rfl⟩,
   C8_bulk_validation.2.2 sampleCfg _ none sampleOk202 [("88001712345678".data, "Hi".data)]
     (by simp) (by decide) (by rfl)⟩

end BulkSMS
